import Mathlib

/-!
Verification of the Proj.4 projection shim (`src/Projections/Core-x64/Core.cpp`).

The shim exports seven functions, each a one-line pass-through to the external
Proj.4 library (`pj_init_plus`, `pj_is_latlong`, `pj_free`, `pj_transform`).
We embed the shim shallowly:

* `Handle` models `void*` / `projPJ` as an address-sized token; `0` models the
  C `NULL` pointer.
* A coordinate array pointer (`double*`) is modelled as `Option (List D)`:
  `none` is the `NULL` pointer, `some l` a non-null pointer to the cells `l`.
  The scalar type `D` of a `double` cell is kept abstract, since the shim never
  inspects coordinate values.
* The external library is an abstract structure `ExtLib` holding the four
  Proj.4 functions the shim calls.  `pj_transform` mutates its arrays in
  place; we model this by returning the new array contents together with the
  `int` status code, and the structure carries the memory-model fact that an
  in-place write can change neither the nullness nor the length of an array
  (`transform_shape`).
* Each shim entry point returns its C result paired with the list of external
  library calls it performs (`ExtCall`), so that "dispatches exactly one call
  with these verbatim arguments" is a statable property.
-/

/-- An opaque projection handle (`void*` / `projPJ`), modelled as an
address-sized integer token.  `0` models the C `NULL` pointer, the failure
sentinel of `pj_init_plus`. -/
abbrev Handle := Int

/-- The observable effect of one `pj_transform` call: the new contents of the
three coordinate arrays (still `none` where the caller passed `NULL`) and the
returned `int` status code. -/
structure TransformResult (D : Type) where
  xs : Option (List D)
  ys : Option (List D)
  zs : Option (List D)
  status : Int
deriving DecidableEq

/-- The external Proj.4 library, kept abstract: the four functions the shim
calls, plus the memory-model fact that `pj_transform` writes arrays in place,
hence preserves the nullness and the length of each coordinate array. -/
structure ExtLib (D : Type) where
  pj_init_plus : String → Handle
  pj_is_latlong : Handle → Int
  pj_free : Handle → Unit
  pj_transform : Handle → Handle → Int → Int →
    Option (List D) → Option (List D) → Option (List D) → TransformResult D
  transform_shape : ∀ src dst point_count point_offset x y z,
    (pj_transform src dst point_count point_offset x y z).xs.map List.length
        = x.map List.length ∧
    (pj_transform src dst point_count point_offset x y z).ys.map List.length
        = y.map List.length ∧
    (pj_transform src dst point_count point_offset x y z).zs.map List.length
        = z.map List.length

/-- One call into the external library, recorded with its verbatim
arguments. -/
inductive ExtCall (D : Type) where
  | pjInitPlus (wkt : String)
  | pjIsLatLong (hdl : Handle)
  | pjFree (hdl : Handle)
  | pjTransform (src dst : Handle) (point_count : Int) (point_offset : Int)
      (x y z : Option (List D))
deriving DecidableEq

/-- Reads the cell a `double*` points to after a call: with a non-null pointer
to a single cell this is that cell; the defaults are dead code under
`ExtLib.transform_shape`. -/
def readCell {D : Type} (o : Option (List D)) (dflt : D) : D :=
  (o.getD [dflt]).headD dflt

/-- Shim `initProjection`: `return pj_init_plus(wkt);`. -/
def initProjection {D : Type} (ext : ExtLib D) (wkt : String) :
    Handle × List (ExtCall D) :=
  (ext.pj_init_plus wkt, [ExtCall.pjInitPlus wkt])

/-- Shim `isLatLon`: `return pj_is_latlong((projPJ)hdl) ? true : false;`. -/
def isLatLon {D : Type} (ext : ExtLib D) (hdl : Handle) :
    Bool × List (ExtCall D) :=
  (if ext.pj_is_latlong hdl ≠ 0 then true else false, [ExtCall.pjIsLatLong hdl])

/-- Shim `freeProjection`: `pj_free((projPJ)hdl);`. -/
def freeProjection {D : Type} (ext : ExtLib D) (hdl : Handle) :
    Unit × List (ExtCall D) :=
  (ext.pj_free hdl, [ExtCall.pjFree hdl])

/-- Shim `transformPoints`:
`return pj_transform((projPJ)src, (projPJ)dst, point_count, point_offset, x, y, z);`. -/
def transformPoints {D : Type} (ext : ExtLib D) (src dst : Handle)
    (point_count : Int) (point_offset : Int) (x y z : Option (List D)) :
    TransformResult D × List (ExtCall D) :=
  (ext.pj_transform src dst point_count point_offset x y z,
   [ExtCall.pjTransform src dst point_count point_offset x y z])

/-- Shim `transformSimplePoints`:
`return pj_transform((projPJ)src, (projPJ)dst, point_count, point_offset, x, y, NULL);`. -/
def transformSimplePoints {D : Type} (ext : ExtLib D) (src dst : Handle)
    (point_count : Int) (point_offset : Int) (x y : Option (List D)) :
    TransformResult D × List (ExtCall D) :=
  (ext.pj_transform src dst point_count point_offset x y none,
   [ExtCall.pjTransform src dst point_count point_offset x y none])

/-- The result of the scalar in/out variant `transformPoint`: the final values
of the three `double&` parameters and the returned status code. -/
structure PointResult (D : Type) where
  x : D
  y : D
  z : D
  status : Int
deriving DecidableEq

/-- Shim `transformPoint`:
`return pj_transform((projPJ)src, (projPJ)dst, 1, 0, &x, &y, &z);` — the
addresses of the three scalars are one-cell arrays, read back afterwards. -/
def transformPoint {D : Type} (ext : ExtLib D) (src dst : Handle) (x y z : D) :
    PointResult D × List (ExtCall D) :=
  let r := ext.pj_transform src dst 1 0 (some [x]) (some [y]) (some [z])
  (⟨readCell r.xs x, readCell r.ys y, readCell r.zs z, r.status⟩,
   [ExtCall.pjTransform src dst 1 0 (some [x]) (some [y]) (some [z])])

/-- The result of the scalar in/out variant `transformSimplePoint`. -/
structure SimplePointResult (D : Type) where
  x : D
  y : D
  status : Int
deriving DecidableEq

/-- Shim `transformSimplePoint`:
`return pj_transform((projPJ)src, (projPJ)dst, 1, 0, &x, &y, NULL);`. -/
def transformSimplePoint {D : Type} (ext : ExtLib D) (src dst : Handle)
    (x y : D) : SimplePointResult D × List (ExtCall D) :=
  let r := ext.pj_transform src dst 1 0 (some [x]) (some [y]) none
  (⟨readCell r.xs x, readCell r.ys y, r.status⟩,
   [ExtCall.pjTransform src dst 1 0 (some [x]) (some [y]) none])

/-- N sequential `transformPoint` calls over a list of coordinate triples,
collecting the three output arrays. -/
def seqTransformPoint {D : Type} (ext : ExtLib D) (src dst : Handle) :
    List (D × D × D) → List D × List D × List D
  | [] => ([], [], [])
  | (x, y, z) :: rest =>
    let r := (transformPoint ext src dst x y z).1
    let t := seqTransformPoint ext src dst rest
    (r.x :: t.1, r.y :: t.2.1, r.z :: t.2.2)

/-- A non-null array pointer whose cell count is zero holds the empty list. -/
theorem shape_nil {D : Type} {o : Option (List D)}
    (h : o.map List.length = some 0) : o = some [] := by
  cases o with
  | none => simp at h
  | some l =>
    have hl : l.length = 0 := by simpa using h
    simp [List.length_eq_zero.mp hl]

/-- A non-null array pointer with exactly one cell holds a singleton list. -/
theorem shape_singleton {D : Type} {o : Option (List D)}
    (h : o.map List.length = some 1) : ∃ b, o = some [b] := by
  cases o with
  | none => simp at h
  | some l =>
    have hl : l.length = 1 := by simpa using h
    obtain ⟨b, hb⟩ := List.length_eq_one.mp hl
    exact ⟨b, by rw [hb]⟩

/-- A one-cell array pointer is exactly the singleton of the cell `readCell`
reads back from it. -/
theorem singleton_readCell {D : Type} {o : Option (List D)} (d : D)
    (h : o.map List.length = some 1) : o = some [readCell o d] := by
  obtain ⟨b, hb⟩ := shape_singleton h
  rw [hb]
  simp [readCell]

/-- C1: for every source handle, destination handle, count, stride, and
x/y/z array arguments, `transformPoints` invokes the external library's
`pj_transform` exactly once with those same arguments, and returns the
external library's result — in particular its raw integer status code —
unmodified, with no interpretation or translation. -/
theorem transformPoints_forwards_once {D : Type} (ext : ExtLib D)
    (src dst : Handle) (point_count point_offset : Int)
    (x y z : Option (List D)) :
    (transformPoints ext src dst point_count point_offset x y z).2
        = [ExtCall.pjTransform src dst point_count point_offset x y z]
  ∧ (transformPoints ext src dst point_count point_offset x y z).1
        = ext.pj_transform src dst point_count point_offset x y z
  ∧ (transformPoints ext src dst point_count point_offset x y z).1.status
        = (ext.pj_transform src dst point_count point_offset x y z).status :=
  ⟨rfl, rfl, rfl⟩

/-- C2: for every handle, `isLatLon` returns exactly `true` or exactly
`false`, and it returns `true` if and only if the external library's
`pj_is_latlong` query yields a non-zero result: the integer truthy result is
converted into a strict boolean. -/
theorem isLatLon_strict_bool {D : Type} (ext : ExtLib D) (hdl : Handle) :
    ((isLatLon ext hdl).1 = true ∨ (isLatLon ext hdl).1 = false)
  ∧ ((isLatLon ext hdl).1 = true ↔ ext.pj_is_latlong hdl ≠ 0)
  ∧ (isLatLon ext hdl).2 = [ExtCall.pjIsLatLong hdl] := by
  refine ⟨?_, ?_, rfl⟩
  · cases hb : (isLatLon ext hdl).1
    · exact Or.inr rfl
    · exact Or.inl rfl
  · by_cases h : ext.pj_is_latlong hdl ≠ 0 <;> simp [isLatLon, h]

/-- C3: for every definition string, `initProjection` returns exactly the
handle produced by the external library's `pj_init_plus` for that string —
hence the null sentinel `0` exactly when the library returns it — performing
no validation of its own and dispatching exactly that one call. -/
theorem initProjection_forwards {D : Type} (ext : ExtLib D) (wkt : String) :
    (initProjection ext wkt).1 = ext.pj_init_plus wkt
  ∧ (initProjection ext wkt).2 = [ExtCall.pjInitPlus wkt] :=
  ⟨rfl, rfl⟩

/-- C4: for every source handle, destination handle, count, stride, and x/y
arrays, `transformSimplePoints` behaves identically — same external call,
same results, same status code — to `transformPoints` called with the same
arguments and a null (`none`) third-axis array. -/
theorem transformSimplePoints_eq_null_z {D : Type} (ext : ExtLib D)
    (src dst : Handle) (point_count point_offset : Int)
    (x y : Option (List D)) :
    transformSimplePoints ext src dst point_count point_offset x y
      = transformPoints ext src dst point_count point_offset x y none :=
  rfl

/-- C5: `transformPoint src dst x y z` behaves identically to
`transformPoints src dst 1 0` on the one-cell arrays holding `x`, `y`, `z`
(same external call, same status code, and the batch output arrays are
exactly the singletons of the scalar outputs); likewise
`transformSimplePoint` against `transformSimplePoints` with count 1 and
stride 0. -/
theorem transformPoint_degenerate {D : Type} (ext : ExtLib D)
    (src dst : Handle) (x y z : D) :
    (transformPoint ext src dst x y z).2
        = (transformPoints ext src dst 1 0 (some [x]) (some [y]) (some [z])).2
  ∧ (transformPoint ext src dst x y z).1.status
        = (transformPoints ext src dst 1 0 (some [x]) (some [y]) (some [z])).1.status
  ∧ (transformPoints ext src dst 1 0 (some [x]) (some [y]) (some [z])).1.xs
        = some [(transformPoint ext src dst x y z).1.x]
  ∧ (transformPoints ext src dst 1 0 (some [x]) (some [y]) (some [z])).1.ys
        = some [(transformPoint ext src dst x y z).1.y]
  ∧ (transformPoints ext src dst 1 0 (some [x]) (some [y]) (some [z])).1.zs
        = some [(transformPoint ext src dst x y z).1.z]
  ∧ (transformSimplePoint ext src dst x y).2
        = (transformSimplePoints ext src dst 1 0 (some [x]) (some [y])).2
  ∧ (transformSimplePoint ext src dst x y).1.status
        = (transformSimplePoints ext src dst 1 0 (some [x]) (some [y])).1.status
  ∧ (transformSimplePoints ext src dst 1 0 (some [x]) (some [y])).1.xs
        = some [(transformSimplePoint ext src dst x y).1.x]
  ∧ (transformSimplePoints ext src dst 1 0 (some [x]) (some [y])).1.ys
        = some [(transformSimplePoint ext src dst x y).1.y] := by
  obtain ⟨hx3, hy3, hz3⟩ :=
    ext.transform_shape src dst 1 0 (some [x]) (some [y]) (some [z])
  obtain ⟨hx2, hy2, _⟩ :=
    ext.transform_shape src dst 1 0 (some [x]) (some [y]) none
  refine ⟨rfl, rfl, ?_, ?_, ?_, rfl, rfl, ?_, ?_⟩
  · exact singleton_readCell x (by simpa using hx3)
  · exact singleton_readCell y (by simpa using hy3)
  · exact singleton_readCell z (by simpa using hz3)
  · exact singleton_readCell x (by simpa using hx2)
  · exact singleton_readCell y (by simpa using hy2)

/-- C9: none of the handle-taking operations checks its handle for null or
validity: for every handle — the null handle `0` included, since `Handle`
ranges over all address values — the handle is forwarded unchanged in the
single external call each operation dispatches, and no shim-side branch
alters the call or the result. -/
theorem handle_ops_no_null_check {D : Type} (ext : ExtLib D)
    (hdl src dst : Handle) (point_count point_offset : Int)
    (x y z : Option (List D)) (xv yv zv : D) :
    (isLatLon ext hdl).2 = [ExtCall.pjIsLatLong hdl]
  ∧ (freeProjection ext hdl).2 = [ExtCall.pjFree hdl]
  ∧ (freeProjection ext hdl).1 = ext.pj_free hdl
  ∧ (transformPoints ext src dst point_count point_offset x y z).2
        = [ExtCall.pjTransform src dst point_count point_offset x y z]
  ∧ (transformSimplePoints ext src dst point_count point_offset x y).2
        = [ExtCall.pjTransform src dst point_count point_offset x y none]
  ∧ (transformPoint ext src dst xv yv zv).2
        = [ExtCall.pjTransform src dst 1 0 (some [xv]) (some [yv]) (some [zv])]
  ∧ (transformSimplePoint ext src dst xv yv).2
        = [ExtCall.pjTransform src dst 1 0 (some [xv]) (some [yv]) none] :=
  ⟨rfl, rfl, rfl, rfl, rfl, rfl, rfl⟩

/-- C10: `transformPoints` and `transformSimplePoints` validate nothing:
for every count (zero and negative values included, as the count ranges over
all integers), every stride, and every combination of array pointers (the
null pointer `none` included), exactly one external `pj_transform` call is
made with those values forwarded verbatim, and its status is returned. -/
theorem batch_transforms_no_validation {D : Type} (ext : ExtLib D)
    (src dst : Handle) (point_count point_offset : Int)
    (x y z : Option (List D)) :
    (transformPoints ext src dst point_count point_offset x y z).2
        = [ExtCall.pjTransform src dst point_count point_offset x y z]
  ∧ (transformPoints ext src dst point_count point_offset x y z).1.status
        = (ext.pj_transform src dst point_count point_offset x y z).status
  ∧ (transformSimplePoints ext src dst point_count point_offset x y).2
        = [ExtCall.pjTransform src dst point_count point_offset x y none]
  ∧ (transformSimplePoints ext src dst point_count point_offset x y).1.status
        = (ext.pj_transform src dst point_count point_offset x y none).status :=
  ⟨rfl, rfl, rfl, rfl⟩

/-- A concrete external library over integer cells whose `pj_transform`
leaves every array unchanged and reports status 0; used to instantiate
theorems that assume properties of the external library. -/
def idExt : ExtLib Int where
  pj_init_plus := fun _ => 1
  pj_is_latlong := fun _ => 1
  pj_free := fun _ => ()
  pj_transform := fun _ _ _ _ x y z => ⟨x, y, z, 0⟩
  transform_shape := fun _ _ _ _ _ _ _ => ⟨rfl, rfl, rfl⟩

/-- A second concrete external library with the same four functions as
`idExt`, built independently. -/
def idExt2 : ExtLib Int where
  pj_init_plus := fun _ => 1
  pj_is_latlong := fun _ => 1
  pj_free := fun _ => ()
  pj_transform := fun _ _ _ _ x y z => ⟨x, y, z, 0⟩
  transform_shape := fun _ _ _ _ _ _ _ => ⟨rfl, rfl, rfl⟩

/-- C6: when the external library treats a transform between a handle and
itself as the identity on coordinate data — the documented contract of
`pj_transform` for equal source and destination — `transformPoint h h x y z`
leaves `x`, `y` and `z` unchanged, for every handle `h`. -/
theorem transformPoint_same_handle_identity {D : Type} (ext : ExtLib D)
    (h : Handle) (x y z : D)
    (hid : ∀ point_count point_offset xs ys zs,
      (ext.pj_transform h h point_count point_offset xs ys zs).xs = xs ∧
      (ext.pj_transform h h point_count point_offset xs ys zs).ys = ys ∧
      (ext.pj_transform h h point_count point_offset xs ys zs).zs = zs) :
    (transformPoint ext h h x y z).1.x = x
  ∧ (transformPoint ext h h x y z).1.y = y
  ∧ (transformPoint ext h h x y z).1.z = z := by
  obtain ⟨hx, hy, hz⟩ := hid 1 0 (some [x]) (some [y]) (some [z])
  refine ⟨?_, ?_, ?_⟩ <;> simp [transformPoint, hx, hy, hz, readCell]

/-- Witness for C6 at the concrete identity library and the point
(11, 22, 33) with handle 7. -/
theorem transformPoint_same_handle_identity_witness :
    (transformPoint idExt 7 7 11 22 33).1.x = 11
  ∧ (transformPoint idExt 7 7 11 22 33).1.y = 22
  ∧ (transformPoint idExt 7 7 11 22 33).1.z = 33 :=
  transformPoint_same_handle_identity idExt 7 11 22 33
    (fun _ _ _ _ _ => ⟨rfl, rfl, rfl⟩)

/-- C8: every exported operation is stateless and deterministic at the shim
layer: its return value, coordinate outputs and dispatched call depend only
on its arguments and on the external library functions it calls, so two
external libraries giving identical responses yield identical results on
every argument, for all seven operations. -/
theorem shim_stateless_deterministic {D : Type} (ext1 ext2 : ExtLib D)
    (hinit : ext1.pj_init_plus = ext2.pj_init_plus)
    (hlat : ext1.pj_is_latlong = ext2.pj_is_latlong)
    (hfree : ext1.pj_free = ext2.pj_free)
    (htr : ext1.pj_transform = ext2.pj_transform) :
    (∀ wkt, initProjection ext1 wkt = initProjection ext2 wkt)
  ∧ (∀ hdl, isLatLon ext1 hdl = isLatLon ext2 hdl)
  ∧ (∀ hdl, freeProjection ext1 hdl = freeProjection ext2 hdl)
  ∧ (∀ src dst point_count point_offset x y z,
      transformPoints ext1 src dst point_count point_offset x y z
        = transformPoints ext2 src dst point_count point_offset x y z)
  ∧ (∀ src dst point_count point_offset x y,
      transformSimplePoints ext1 src dst point_count point_offset x y
        = transformSimplePoints ext2 src dst point_count point_offset x y)
  ∧ (∀ src dst x y z,
      transformPoint ext1 src dst x y z = transformPoint ext2 src dst x y z)
  ∧ (∀ src dst x y,
      transformSimplePoint ext1 src dst x y
        = transformSimplePoint ext2 src dst x y) := by
  refine ⟨?_, ?_, ?_, ?_, ?_, ?_, ?_⟩ <;> intros <;>
    simp [initProjection, isLatLon, freeProjection, transformPoints,
      transformSimplePoints, transformPoint, transformSimplePoint,
      hinit, hlat, hfree, htr]

/-- Witness for C8 at two concrete external libraries with identical
responses: each operation agrees on a concrete argument. -/
theorem shim_stateless_deterministic_witness :
    initProjection idExt "+proj=latlong" = initProjection idExt2 "+proj=latlong"
  ∧ isLatLon idExt 5 = isLatLon idExt2 5
  ∧ transformPoints idExt 1 2 3 1 (some [4]) (some [5]) none
      = transformPoints idExt2 1 2 3 1 (some [4]) (some [5]) none := by
  obtain ⟨h1, h2, _, h4, _, _, _⟩ :=
    shim_stateless_deterministic idExt idExt2 rfl rfl rfl rfl
  exact ⟨h1 "+proj=latlong", h2 5, h4 1 2 3 1 (some [4]) (some [5]) none⟩

/-- First coordinates of a list of triples, packed contiguously. -/
def xsOf {D : Type} (pts : List (D × D × D)) : List D :=
  pts.map fun p => p.1

/-- Second coordinates of a list of triples, packed contiguously. -/
def ysOf {D : Type} (pts : List (D × D × D)) : List D :=
  pts.map fun p => p.2.1

/-- Third coordinates of a list of triples, packed contiguously. -/
def zsOf {D : Type} (pts : List (D × D × D)) : List D :=
  pts.map fun p => p.2.2

/-- C7: when the external library iterates contiguous (stride 1) arrays
pointwise — its documented stride semantics, stated as `hstride`: a call on
`count + 1` points decomposes into the single-point call on the head and the
call on the remaining `count` points — a single `transformPoints` call on N
packed points produces exactly the output arrays of N sequential
`transformPoint` calls over the same coordinate data. -/
theorem transformPoints_eq_seq {D : Type} (ext : ExtLib D) (src dst : Handle)
    (pts : List (D × D × D))
    (hstride : ∀ (x y z : D) (xs ys zs : List D),
      (ext.pj_transform src dst ((xs.length : Int) + 1) 1
          (some (x :: xs)) (some (y :: ys)) (some (z :: zs))).xs
        = some ((ext.pj_transform src dst 1 0
              (some [x]) (some [y]) (some [z])).xs.getD [x]
            ++ (ext.pj_transform src dst (xs.length : Int) 1
              (some xs) (some ys) (some zs)).xs.getD xs)
      ∧ (ext.pj_transform src dst ((xs.length : Int) + 1) 1
          (some (x :: xs)) (some (y :: ys)) (some (z :: zs))).ys
        = some ((ext.pj_transform src dst 1 0
              (some [x]) (some [y]) (some [z])).ys.getD [y]
            ++ (ext.pj_transform src dst (xs.length : Int) 1
              (some xs) (some ys) (some zs)).ys.getD ys)
      ∧ (ext.pj_transform src dst ((xs.length : Int) + 1) 1
          (some (x :: xs)) (some (y :: ys)) (some (z :: zs))).zs
        = some ((ext.pj_transform src dst 1 0
              (some [x]) (some [y]) (some [z])).zs.getD [z]
            ++ (ext.pj_transform src dst (xs.length : Int) 1
              (some xs) (some ys) (some zs)).zs.getD zs)) :
    (transformPoints ext src dst (pts.length : Int) 1
        (some (xsOf pts)) (some (ysOf pts)) (some (zsOf pts))).1.xs
      = some (seqTransformPoint ext src dst pts).1
  ∧ (transformPoints ext src dst (pts.length : Int) 1
        (some (xsOf pts)) (some (ysOf pts)) (some (zsOf pts))).1.ys
      = some (seqTransformPoint ext src dst pts).2.1
  ∧ (transformPoints ext src dst (pts.length : Int) 1
        (some (xsOf pts)) (some (ysOf pts)) (some (zsOf pts))).1.zs
      = some (seqTransformPoint ext src dst pts).2.2 := by
  induction pts with
  | nil =>
    obtain ⟨h1, h2, h3⟩ :=
      ext.transform_shape src dst 0 1 (some []) (some []) (some [])
    simp only [xsOf, ysOf, zsOf, List.map_nil, List.length_nil, Nat.cast_zero,
      transformPoints, seqTransformPoint]
    exact ⟨shape_nil (by simpa using h1), shape_nil (by simpa using h2),
      shape_nil (by simpa using h3)⟩
  | cons p rest ih =>
    obtain ⟨x, y, z⟩ := p
    obtain ⟨ihx, ihy, ihz⟩ := ih
    obtain ⟨hsx, hsy, hsz⟩ := hstride x y z (xsOf rest) (ysOf rest) (zsOf rest)
    simp only [xsOf, ysOf, zsOf, List.length_map] at hsx hsy hsz
    simp only [transformPoints, xsOf, ysOf, zsOf] at ihx ihy ihz
    have hshape := ext.transform_shape src dst 1 0 (some [x]) (some [y]) (some [z])
    have hdx : (ext.pj_transform src dst 1 0 (some [x]) (some [y]) (some [z])).xs
        = some [(transformPoint ext src dst x y z).1.x] :=
      singleton_readCell x (by simpa using hshape.1)
    have hdy : (ext.pj_transform src dst 1 0 (some [x]) (some [y]) (some [z])).ys
        = some [(transformPoint ext src dst x y z).1.y] :=
      singleton_readCell y (by simpa using hshape.2.1)
    have hdz : (ext.pj_transform src dst 1 0 (some [x]) (some [y]) (some [z])).zs
        = some [(transformPoint ext src dst x y z).1.z] :=
      singleton_readCell z (by simpa using hshape.2.2)
    simp only [xsOf, ysOf, zsOf, List.map_cons, List.length_cons,
      Nat.cast_add, Nat.cast_one, transformPoints, seqTransformPoint]
    refine ⟨?_, ?_, ?_⟩
    · rw [hsx, hdx, ihx]
      simp
    · rw [hsy, hdy, ihy]
      simp
    · rw [hsz, hdz, ihz]
      simp

/-- Witness for C7 at the concrete identity library and the two-point list
((1,2,3), (4,5,6)) between handles 3 and 4. -/
theorem transformPoints_eq_seq_witness :
    (transformPoints idExt 3 4
        (([((1:Int),(2:Int),(3:Int)), (4,5,6)].length : Int)) 1
        (some (xsOf [((1:Int),(2:Int),(3:Int)), (4,5,6)]))
        (some (ysOf [((1:Int),(2:Int),(3:Int)), (4,5,6)]))
        (some (zsOf [((1:Int),(2:Int),(3:Int)), (4,5,6)]))).1.xs
      = some (seqTransformPoint idExt 3 4 [((1:Int),(2:Int),(3:Int)), (4,5,6)]).1
  ∧ (transformPoints idExt 3 4
        (([((1:Int),(2:Int),(3:Int)), (4,5,6)].length : Int)) 1
        (some (xsOf [((1:Int),(2:Int),(3:Int)), (4,5,6)]))
        (some (ysOf [((1:Int),(2:Int),(3:Int)), (4,5,6)]))
        (some (zsOf [((1:Int),(2:Int),(3:Int)), (4,5,6)]))).1.ys
      = some (seqTransformPoint idExt 3 4 [((1:Int),(2:Int),(3:Int)), (4,5,6)]).2.1
  ∧ (transformPoints idExt 3 4
        (([((1:Int),(2:Int),(3:Int)), (4,5,6)].length : Int)) 1
        (some (xsOf [((1:Int),(2:Int),(3:Int)), (4,5,6)]))
        (some (ysOf [((1:Int),(2:Int),(3:Int)), (4,5,6)]))
        (some (zsOf [((1:Int),(2:Int),(3:Int)), (4,5,6)]))).1.zs
      = some (seqTransformPoint idExt 3 4 [((1:Int),(2:Int),(3:Int)), (4,5,6)]).2.2 :=
  transformPoints_eq_seq idExt 3 4 [((1:Int),(2:Int),(3:Int)), (4,5,6)]
    (fun _ _ _ _ _ _ => ⟨rfl, rfl, rfl⟩)
